import Mathlib

/-!
Verification of the `bkpt` debugger core (src/breakpoint.rs, src/debugger.rs,
src/register.rs, src/main.rs) against its natural-language specification.

Shallow embedding conventions used throughout this file:
* the traced process's memory, as seen through the word-granular
  `ptrace::read` / `ptrace::write` calls, is a total map from a numeric
  address (`Int`, the value of the Rust `AddressType` pointer) to the 64-bit
  word read at that address, kept as a `Nat` bit pattern below `2 ^ 64`;
* the `Pid` argument threaded through the Rust code is a constant handle to
  the single traced process and is dropped from the embedding;
* Rust panics (`unwrap` on `None`/`Err`, `todo!()`, `unreachable!()`) are
  modelled by `Option.none` (or an explicit `panic` error value);
* status `println!` calls whose text no claim depends on are not modelled.
-/

/-- Location (src/breakpoint.rs lines 13-19, duplicated in src/main.rs lines
25-31): tagged variant used as the breakpoint-table key.  `Address` carries an
`isize`, `Line` a `u64`. -/
inductive Location where
  | Address : Int → Location
  | Function : String → Location
  | Line : Nat → Location
deriving DecidableEq, Repr

/-- Breakpoint (src/breakpoint.rs lines 6-11, duplicated in src/main.rs lines
18-23).  The `pid` field is the constant traced-process handle and is dropped;
`old_instruction` is the `isize` scratch slot for the saved low byte, kept as
a `Nat` bit pattern. -/
structure Breakpoint where
  addr : Location
  enabled : Bool
  old_instruction : Nat
deriving DecidableEq, Repr

/-- Traced-process memory at `ptrace` word granularity: each address maps to
the 64-bit word that `ptrace::read` would return there. -/
def Mem : Type := Int → Nat

/-- Memory after a `ptrace::write` of word `v` at address `p`. -/
def memWrite (m : Mem) (p : Int) (v : Nat) : Mem :=
  fun q => if q = p then v else m q

/-- BKPT_OPCODE (src/breakpoint.rs line 22): the `int3` trap opcode `0xcc`. -/
def BKPT_OPCODE : Nat := 0xcc

/-- OPCODE_BITMASK (src/breakpoint.rs line 23): the low-byte mask `0xff`. -/
def OPCODE_BITMASK : Nat := 0xff

/-- Bit pattern of the Rust expression `!OPCODE_BITMASK` on a 64-bit `isize`:
all bits set except the low byte. -/
def NOT_OPCODE_BITMASK : Nat := 2 ^ 64 - 0x100

/-- Breakpoint::new (src/breakpoint.rs lines 25-32): a fresh breakpoint is
disabled with `old_instruction = 0`. -/
def Breakpoint.new (addr : Location) : Breakpoint :=
  { addr := addr, enabled := false, old_instruction := 0 }

/-- Breakpoint::enable (src/breakpoint.rs lines 34-56, duplicated in
src/main.rs lines 381-403).  Matches on `self.addr`: an `Address` is used as
the `ptrace` pointer, while `Function`/`Line` hit `todo!()` (modelled as
`none`).  It reads the word at the target, saves the low byte into
`old_instruction`, and writes the word back with the low byte replaced by the
trap opcode.  Note that the source performs no check of `self.enabled`. -/
def Breakpoint.enable (bp : Breakpoint) (mem : Mem) : Option (Breakpoint × Mem) :=
  match bp.addr with
  | Location.Address addr =>
      let data := mem addr
      let old_int := Nat.land data OPCODE_BITMASK
      let bkpt := Nat.lor (Nat.land data NOT_OPCODE_BITMASK) BKPT_OPCODE
      some ({ bp with old_instruction := old_int, enabled := true },
            memWrite mem addr bkpt)
  | Location.Function _ => none
  | Location.Line _ => none

/-- Breakpoint::disable (src/breakpoint.rs lines 58-69, duplicated in
src/main.rs lines 405-416).  The source computes the target pointer as
`&self.addr as *const _ as AddressType`: the numeric address of the
debugger-local `addr` field itself, not the address stored inside the
`Location`.  That value is determined by where the Rust `Breakpoint` struct
happens to live in the debugger's address space, so it enters the embedding
as the parameter `selfAddrPtr`; nothing in the source relates it to the
`Location` payload.  At that pointer the code reads the word, clears the low
byte, ORs in `old_instruction` and writes the word back, then resets the
flag and the saved byte.  No check of `self.enabled` is performed. -/
def Breakpoint.disable (selfAddrPtr : Int) (bp : Breakpoint) (mem : Mem) :
    Breakpoint × Mem :=
  let data := mem selfAddrPtr
  let prev_data := Nat.lor (Nat.land data NOT_OPCODE_BITMASK) bp.old_instruction
  ({ bp with old_instruction := 0, enabled := false },
   memWrite mem selfAddrPtr prev_data)

/-- C1: the claim states that for every byte value b (including 0xCC) and
every address a, `enable` followed by `disable` on a breakpoint at
`Location::Address(a)` restores the traced process's word at a exactly.  In
the source this fails: `disable` addresses the word through
`&self.addr as *const _`, the debugger-local field address, not a.  Here the
breakpoint is at address 0x1000 whose original word is 0xAB, the struct field
lives at (debugger-local) address 0x7000, and after enable-then-disable the
word at 0x1000 still holds the trap opcode 0xCC instead of 0xAB. -/
theorem c1_enable_disable_leaves_trap_byte :
    ((Breakpoint.enable (Breakpoint.new (Location.Address 0x1000)) (fun _ => 0xAB)).map
      (fun x => (Breakpoint.disable 0x7000 x.1 x.2).2 0x1000)) = some 0xCC
      ∧ (0xCC : Nat) ≠ 0xAB := by
  constructor
  · rfl
  · decide

/-- C3: the claim states that enabling an already-enabled breakpoint is
rejected and leaves `old_instruction` and memory unchanged.  The source has
no such check: a second `enable` succeeds and re-saves the low byte of the
already-patched word, so `old_instruction` becomes the trap opcode 0xCC and
the original byte 0xAB is lost.  Here both `enable` calls are evaluated on a
breakpoint at 0x1000 over memory whose original word is 0xAB. -/
theorem c3_double_enable_overwrites_saved_byte :
    (((Breakpoint.enable (Breakpoint.new (Location.Address 0x1000)) (fun _ => 0xAB)).map
        (fun x => x.1.old_instruction)) = some 0xAB)
    ∧ (((Breakpoint.enable (Breakpoint.new (Location.Address 0x1000)) (fun _ => 0xAB)).bind
        (fun x => Breakpoint.enable x.1 x.2)).map
          (fun y => (y.1.enabled, y.1.old_instruction))) = some (true, 0xCC) := by
  constructor
  · rfl
  · rfl

/-- C9: the claim states that `disable` on a breakpoint whose enabled flag is
false is a no-op on both the breakpoint state and the traced process's
memory.  The source runs the patch unconditionally: with
`old_instruction = 0` it clears the low byte of the word at the pointer it
uses (the debugger-local field address, here 0x2000), changing the traced
memory word there from 0xABCD to 0xAB00.  The first conjunct records that
the fresh breakpoint is indeed disabled. -/
theorem c9_disable_on_disabled_writes_memory :
    (Breakpoint.new (Location.Address 0x1000)).enabled = false
    ∧ (Breakpoint.disable 0x2000 (Breakpoint.new (Location.Address 0x1000))
        (fun _ => 0xABCD)).2 0x2000 = 0xAB00
    ∧ ((fun _ => 0xABCD : Mem) 0x2000 = 0xABCD)
    ∧ (0xAB00 : Nat) ≠ 0xABCD := by
  refine ⟨rfl, ?_, rfl, by decide⟩
  rfl

/-- RegisterKind (src/register.rs lines 14-70): the closed x86-64 register
set exposed by the tracing ABI, including the two pseudo-registers `OrigRax`
and `Rip`. -/
inductive RegisterKind where
  | Rax | Rbx | Rcx | Rdx | Rdi | Rsi | Rbp | Rsp
  | R8 | R9 | R10 | R11 | R12 | R13 | R14 | R15
  | Ss | Cs | Ds | Es | Fs | Gs
  | FsBase | GsBase
  | OrigRax
  | Rip
  | RFlags
deriving DecidableEq, Repr

/-- RegisterDescriptor (src/register.rs lines 8-11): DWARF number (an `i64`;
`-1` marks the two pseudo-registers) and external name. -/
structure RegisterDescriptor where
  dwarf_no : Int
  name : String
deriving DecidableEq, Repr

/-- Register (src/register.rs lines 3-6): a register identity together with
its descriptor. -/
structure Register where
  kind : RegisterKind
  descriptor : RegisterDescriptor
deriving DecidableEq, Repr

/-- RegisterSelector (src/register.rs lines 72-75): lookup either by DWARF
number or by name. -/
inductive RegisterSelector where
  | Dwarf : Int → RegisterSelector
  | Name : String → RegisterSelector
deriving DecidableEq, Repr

/-- Register::from_selector (src/register.rs lines 145-338).  The Rust match
uses or-patterns `Dwarf(k) | Name(nm)` tried in source order; here the two
selector shapes are split while keeping that first-match order, so the
`Dwarf(-1)` alternative of the first arm (the `OrigRax` arm, line 147) wins
and the `Dwarf(-1)` alternative of the `Rip` arm (line 154) is unreachable,
exactly as in the source.  The final `_ => unreachable!()` (line 336) panics
on every selector no arm covers and is modelled as `none`. -/
def Register.from_selector (selector : RegisterSelector) : Option Register :=
  match selector with
  | RegisterSelector.Dwarf n =>
      if n = -1 then some ⟨RegisterKind.OrigRax, ⟨-1, "orig_rax"⟩⟩
      else if n = 0 then some ⟨RegisterKind.Rax, ⟨0, "rax"⟩⟩
      else if n = 1 then some ⟨RegisterKind.Rdx, ⟨1, "rdx"⟩⟩
      else if n = 2 then some ⟨RegisterKind.Rcx, ⟨2, "rcx"⟩⟩
      else if n = 3 then some ⟨RegisterKind.Rbx, ⟨3, "rbx"⟩⟩
      else if n = 4 then some ⟨RegisterKind.Rsi, ⟨4, "rsi"⟩⟩
      else if n = 5 then some ⟨RegisterKind.Rdi, ⟨5, "rdi"⟩⟩
      else if n = 6 then some ⟨RegisterKind.Rbp, ⟨6, "rbp"⟩⟩
      else if n = 7 then some ⟨RegisterKind.Rsp, ⟨7, "rsp"⟩⟩
      else if n = 8 then some ⟨RegisterKind.R8, ⟨8, "r8"⟩⟩
      else if n = 9 then some ⟨RegisterKind.R9, ⟨9, "r9"⟩⟩
      else if n = 10 then some ⟨RegisterKind.R10, ⟨10, "r10"⟩⟩
      else if n = 11 then some ⟨RegisterKind.R11, ⟨11, "r11"⟩⟩
      else if n = 12 then some ⟨RegisterKind.R12, ⟨12, "r12"⟩⟩
      else if n = 13 then some ⟨RegisterKind.R13, ⟨13, "r13"⟩⟩
      else if n = 14 then some ⟨RegisterKind.R14, ⟨14, "r14"⟩⟩
      else if n = 15 then some ⟨RegisterKind.R15, ⟨15, "r15"⟩⟩
      else if n = 49 then some ⟨RegisterKind.RFlags, ⟨49, "eflags"⟩⟩
      else if n = 50 then some ⟨RegisterKind.Es, ⟨50, "es"⟩⟩
      else if n = 51 then some ⟨RegisterKind.Cs, ⟨51, "cs"⟩⟩
      else if n = 52 then some ⟨RegisterKind.Ss, ⟨52, "ss"⟩⟩
      else if n = 53 then some ⟨RegisterKind.Ds, ⟨53, "ds"⟩⟩
      else if n = 54 then some ⟨RegisterKind.Fs, ⟨54, "fs"⟩⟩
      else if n = 55 then some ⟨RegisterKind.Gs, ⟨55, "gs"⟩⟩
      else if n = 58 then some ⟨RegisterKind.FsBase, ⟨58, "fs_base"⟩⟩
      else if n = 59 then some ⟨RegisterKind.GsBase, ⟨59, "gs_base"⟩⟩
      else none
  | RegisterSelector.Name s =>
      if s = "orig_rax" then some ⟨RegisterKind.OrigRax, ⟨-1, "orig_rax"⟩⟩
      else if s = "rip" then some ⟨RegisterKind.Rip, ⟨-1, "rip"⟩⟩
      else if s = "rax" then some ⟨RegisterKind.Rax, ⟨0, "rax"⟩⟩
      else if s = "rdx" then some ⟨RegisterKind.Rdx, ⟨1, "rdx"⟩⟩
      else if s = "rcx" then some ⟨RegisterKind.Rcx, ⟨2, "rcx"⟩⟩
      else if s = "rbx" then some ⟨RegisterKind.Rbx, ⟨3, "rbx"⟩⟩
      else if s = "rsi" then some ⟨RegisterKind.Rsi, ⟨4, "rsi"⟩⟩
      else if s = "rdi" then some ⟨RegisterKind.Rdi, ⟨5, "rdi"⟩⟩
      else if s = "rbp" then some ⟨RegisterKind.Rbp, ⟨6, "rbp"⟩⟩
      else if s = "rsp" then some ⟨RegisterKind.Rsp, ⟨7, "rsp"⟩⟩
      else if s = "r8" then some ⟨RegisterKind.R8, ⟨8, "r8"⟩⟩
      else if s = "r9" then some ⟨RegisterKind.R9, ⟨9, "r9"⟩⟩
      else if s = "r10" then some ⟨RegisterKind.R10, ⟨10, "r10"⟩⟩
      else if s = "r11" then some ⟨RegisterKind.R11, ⟨11, "r11"⟩⟩
      else if s = "r12" then some ⟨RegisterKind.R12, ⟨12, "r12"⟩⟩
      else if s = "r13" then some ⟨RegisterKind.R13, ⟨13, "r13"⟩⟩
      else if s = "r14" then some ⟨RegisterKind.R14, ⟨14, "r14"⟩⟩
      else if s = "r15" then some ⟨RegisterKind.R15, ⟨15, "r15"⟩⟩
      else if s = "eflags" then some ⟨RegisterKind.RFlags, ⟨49, "eflags"⟩⟩
      else if s = "es" then some ⟨RegisterKind.Es, ⟨50, "es"⟩⟩
      else if s = "cs" then some ⟨RegisterKind.Cs, ⟨51, "cs"⟩⟩
      else if s = "ss" then some ⟨RegisterKind.Ss, ⟨52, "ss"⟩⟩
      else if s = "ds" then some ⟨RegisterKind.Ds, ⟨53, "ds"⟩⟩
      else if s = "fs" then some ⟨RegisterKind.Fs, ⟨54, "fs"⟩⟩
      else if s = "gs" then some ⟨RegisterKind.Gs, ⟨55, "gs"⟩⟩
      else if s = "fs_base" then some ⟨RegisterKind.FsBase, ⟨58, "fs_base"⟩⟩
      else if s = "gs_base" then some ⟨RegisterKind.GsBase, ⟨59, "gs_base"⟩⟩
      else none

/-- Registers that carry both a name and a canonical (non-shared) DWARF
number in src/register.rs: every arm of `Register::from_selector` except the
two pseudo-registers `orig_rax` and `rip`, which share the number -1. -/
def canonicalRegisters : List (Int × String × RegisterKind) :=
  [(0, "rax", RegisterKind.Rax), (1, "rdx", RegisterKind.Rdx),
   (2, "rcx", RegisterKind.Rcx), (3, "rbx", RegisterKind.Rbx),
   (4, "rsi", RegisterKind.Rsi), (5, "rdi", RegisterKind.Rdi),
   (6, "rbp", RegisterKind.Rbp), (7, "rsp", RegisterKind.Rsp),
   (8, "r8", RegisterKind.R8), (9, "r9", RegisterKind.R9),
   (10, "r10", RegisterKind.R10), (11, "r11", RegisterKind.R11),
   (12, "r12", RegisterKind.R12), (13, "r13", RegisterKind.R13),
   (14, "r14", RegisterKind.R14), (15, "r15", RegisterKind.R15),
   (49, "eflags", RegisterKind.RFlags), (50, "es", RegisterKind.Es),
   (51, "cs", RegisterKind.Cs), (52, "ss", RegisterKind.Ss),
   (53, "ds", RegisterKind.Ds), (54, "fs", RegisterKind.Fs),
   (55, "gs", RegisterKind.Gs), (58, "fs_base", RegisterKind.FsBase),
   (59, "gs_base", RegisterKind.GsBase)]

/-- C5: the claim states that lookup by the DWARF number shared by the two
pseudo-registers fails with a lookup error, while lookup by the names "rip"
and "orig_rax" succeeds.  In the source the name lookups do succeed, but
`from_selector(Dwarf(-1))` does not fail: the first match arm silently
resolves it to `OrigRax` (the `Dwarf(-1)` alternative of the `Rip` arm is
unreachable), and no lookup-error value exists anywhere in the code — the
fallthrough arm is `unreachable!()`. -/
theorem c5_dwarf_minus_one_resolves_to_orig_rax :
    Register.from_selector (RegisterSelector.Dwarf (-1))
      = some ⟨RegisterKind.OrigRax, ⟨-1, "orig_rax"⟩⟩
    ∧ Register.from_selector (RegisterSelector.Name "rip")
      = some ⟨RegisterKind.Rip, ⟨-1, "rip"⟩⟩
    ∧ Register.from_selector (RegisterSelector.Name "orig_rax")
      = some ⟨RegisterKind.OrigRax, ⟨-1, "orig_rax"⟩⟩ := by
  refine ⟨rfl, rfl, rfl⟩

/-- C8: for every register with both a name and a canonical (non-shared)
DWARF number — the 25 entries of `canonicalRegisters` — lookup by name and
lookup by number resolve to the same register identity (same kind and same
descriptor). -/
theorem c8_name_and_dwarf_lookups_agree :
    canonicalRegisters.all (fun e =>
      Register.from_selector (RegisterSelector.Dwarf e.1)
          == some ⟨e.2.2, ⟨e.1, e.2.1⟩⟩
      && (Register.from_selector (RegisterSelector.Name e.2.1)
          == some ⟨e.2.2, ⟨e.1, e.2.1⟩⟩)) = true := by
  decide

/-- ErrorKind: the nom error codes produced by the combinators the parser
uses (`take_until`, `space1`, `digit1`, `map_res`). -/
inductive ErrorKind where
  | takeUntil | space1 | digit1 | mapRes
deriving DecidableEq, Repr

/-- NomError: a nom parse error, carrying the input it failed on and the
error code, as `nom::error::Error` does. -/
structure NomError where
  input : String
  code : ErrorKind
deriving DecidableEq, Repr

/-- PErr: how a parse function can fail to return a value — either a nom
`Err::Error` or a Rust panic (`unwrap` on `None`, `unreachable!()`). -/
inductive PErr where
  | nom : NomError → PErr
  | panic : PErr
deriving DecidableEq, Repr

/-- PResult: the embedding of `IResult<&str, A>`, returning the remaining
input and the parsed value, extended with the panic outcome. -/
abbrev PResult (α : Type) : Type := Except PErr (String × α)

/-- Helper for `take_until " "`: splits a character list at the first space,
returning the characters before it and the rest starting with the space;
`none` when no space occurs. -/
def takeUntilSpace : List Char → Option (List Char × List Char)
  | [] => none
  | c :: cs =>
      if c = ' ' then some ([], c :: cs)
      else (takeUntilSpace cs).map (fun p => (c :: p.1, p.2))

/-- until_whitespace (src/debugger.rs lines 236-238): `take_until(" ")`,
failing with a `TakeUntil` error carrying the whole input when it holds no
space. -/
def until_whitespace (input : String) : PResult String :=
  match takeUntilSpace input.data with
  | some (taken, rest) => Except.ok (String.mk rest, String.mk taken)
  | none => Except.error (PErr.nom ⟨input, ErrorKind.takeUntil⟩)

/-- until_whitespace_or_eof (src/debugger.rs lines 228-234): like
`until_whitespace`, but a `TakeUntil` failure is converted into consuming the
whole input. -/
def until_whitespace_or_eof (input : String) : PResult String :=
  match until_whitespace input with
  | Except.ok res => Except.ok res
  | Except.error (PErr.nom e) =>
      if e.code = ErrorKind.takeUntil then Except.ok ("", e.input)
      else Except.error (PErr.nom e)
  | Except.error e => Except.error e

/-- Character class of nom's `space1`: the space and tab characters. -/
def isSpaceChar (c : Char) : Bool := c = ' ' || c = '\t'

/-- space1 (nom): consumes one or more spaces/tabs (the longest prefix
satisfying `isSpaceChar`), failing on zero. -/
def space1 (input : String) : PResult String :=
  let taken := input.data.takeWhile isSpaceChar
  if taken.isEmpty then Except.error (PErr.nom ⟨input, ErrorKind.space1⟩)
  else Except.ok (String.mk (input.data.dropWhile isSpaceChar), String.mk taken)

/-- digit1 (nom): consumes one or more ASCII decimal digits (the longest
prefix satisfying `Char.isDigit`), failing on zero. -/
def digit1 (input : String) : PResult String :=
  let taken := input.data.takeWhile Char.isDigit
  if taken.isEmpty then Except.error (PErr.nom ⟨input, ErrorKind.digit1⟩)
  else Except.ok (String.mk (input.data.dropWhile Char.isDigit), String.mk taken)

/-- Numeric value of a list of ASCII decimal digits, most significant
first. -/
def digitsVal (ds : List Char) : Nat :=
  ds.foldl (fun a c => a * 10 + (c.toNat - 48)) 0

/-- Largest value of a 64-bit `isize`; `str::parse::<isize>` fails with an
overflow error on any decimal numeral above it. -/
def isizeMax : Nat := 2 ^ 63 - 1

/-- pair (nom): runs two parsers in sequence, pairing their results. -/
def pairP {α β : Type} (a : String → PResult α) (b : String → PResult β)
    (input : String) : PResult (α × β) :=
  match a input with
  | Except.error e => Except.error e
  | Except.ok (rem, x) =>
      match b rem with
      | Except.error e => Except.error e
      | Except.ok (rem2, y) => Except.ok (rem2, (x, y))

/-- parse_number (src/debugger.rs lines 240-242):
`map_res(digit1, parse::<isize>)`.  The digit string is non-negative decimal,
so the `isize` parse succeeds exactly when its value fits below `isize::MAX`;
otherwise `map_res` fails with a `MapRes` error. -/
def parse_number (input : String) : PResult Int :=
  match digit1 input with
  | Except.ok (rem, ds) =>
      if digitsVal ds.data ≤ isizeMax then Except.ok (rem, (digitsVal ds.data : Int))
      else Except.error (PErr.nom ⟨input, ErrorKind.mapRes⟩)
  | Except.error e => Except.error e

/-- Command (src/debugger.rs lines 23-28): top-level command categories. -/
inductive Command where
  | Continue | Break | Register | Unknown
deriving DecidableEq, Repr

/-- RegisterOp (src/debugger.rs lines 30-34): register sub-operation; `Write`
carries the `isize` value. -/
inductive RegisterOp where
  | Read
  | Write : Int → RegisterOp
  | Unknown
deriving DecidableEq, Repr

/-- RegisterCmd (src/debugger.rs lines 36-39). -/
structure RegisterCmd where
  op : RegisterOp
  register : Register
deriving DecidableEq, Repr

/-- BreakpointCmd (src/debugger.rs lines 41-46); `Unset` carries a `u8`. -/
inductive BreakpointCmd where
  | List
  | Set : Location → BreakpointCmd
  | Unset : Nat → BreakpointCmd
  | Unknown
deriving DecidableEq, Repr

/-- BreakpointOp (src/debugger.rs lines 48-53). -/
inductive BreakpointOp where
  | List | Set | Unset | Unknown
deriving DecidableEq, Repr

/-- Command::from (src/debugger.rs lines 163-172).  Note the accepted
spellings: the full word "breakpoint" is not among them. -/
def Command.from (cmd : String) : Command :=
  if cmd = "c" ∨ cmd = "cont" ∨ cmd = "continue" then Command.Continue
  else if cmd = "b" ∨ cmd = "br" ∨ cmd = "break" ∨ cmd = "bkpt" then Command.Break
  else if cmd = "r" ∨ cmd = "reg" ∨ cmd = "register" then Command.Register
  else Command.Unknown

/-- RegisterOp::from (src/debugger.rs lines 138-146).  The write arm matches
the strings "w" and "Write" (capital W, as written in the source) and calls
`op.1.unwrap()` on the optional value, panicking when it is absent; the
panic is modelled by `none`. -/
def RegisterOp.from (op : String × Option Int) : Option RegisterOp :=
  if op.1 = "r" ∨ op.1 = "read" then some RegisterOp.Read
  else if op.1 = "w" ∨ op.1 = "Write" then op.2.map RegisterOp.Write
  else some RegisterOp.Unknown

/-- BreakpointOp::from (src/debugger.rs lines 150-159). -/
def BreakpointOp.from (op : String) : BreakpointOp :=
  if op = "ls" ∨ op = "list" then BreakpointOp.List
  else if op = "set" then BreakpointOp.Set
  else if op = "unset" then BreakpointOp.Unset
  else BreakpointOp.Unknown

/-- parse_cmd (src/debugger.rs lines 174-179): first token to `Command`,
remainder returned as the arguments. -/
def parse_cmd (input : String) : PResult Command :=
  match until_whitespace_or_eof input with
  | Except.error e => Except.error e
  | Except.ok (rem, cmd) => Except.ok (rem, Command.from cmd)

/-- Low 8 bits of an `isize`, the Rust `as u8` cast. -/
def asU8 (n : Int) : Nat := (n % 256).toNat

/-- parse_reg_cmd (src/debugger.rs lines 181-204).  After the operation and
register tokens, a non-empty remainder is parsed as a decimal value (errors
propagating via `?`).  `RegisterOp::from` may panic (missing value on a
write), and `Register::from_selector` panics via `unreachable!()` on an
unknown register name; both surface as `PErr.panic`. -/
def parse_reg_cmd (input : String) : PResult RegisterCmd :=
  match pairP space1 until_whitespace_or_eof input with
  | Except.error e => Except.error e
  | Except.ok (rem, (_, op)) =>
      match pairP space1 until_whitespace_or_eof rem with
      | Except.error e => Except.error e
      | Except.ok (rem, (_, reg)) =>
          let valueRes : Except PErr (Option Int) :=
            if rem ≠ "" then
              match pairP space1 parse_number rem with
              | Except.error e => Except.error e
              | Except.ok (_, (_, v)) => Except.ok (some v)
            else Except.ok none
          match valueRes with
          | Except.error e => Except.error e
          | Except.ok value =>
              match RegisterOp.from (op, value) with
              | none => Except.error PErr.panic
              | some o =>
                  match Register.from_selector (RegisterSelector.Name reg) with
                  | none => Except.error PErr.panic
                  | some r => Except.ok ("", ⟨o, r⟩)

/-- parse_bkpt_cmd (src/debugger.rs lines 206-226).  The `Set` arm consumes
an address token but ignores it and returns the hardcoded address `0x1234`
(the source comment reads "TODO: Fix address"); the `Unset` arm parses the
token as a decimal number and truncates it with `as u8`. -/
def parse_bkpt_cmd (input : String) : PResult BreakpointCmd :=
  match pairP space1 until_whitespace_or_eof input with
  | Except.error e => Except.error e
  | Except.ok (rem, (_, op)) =>
      match BreakpointOp.from op with
      | BreakpointOp.Set =>
          match pairP space1 until_whitespace_or_eof rem with
          | Except.error e => Except.error e
          | Except.ok (_, (_, _addr)) =>
              Except.ok ("", BreakpointCmd.Set (Location.Address 0x1234))
      | BreakpointOp.Unset =>
          match pairP space1 until_whitespace_or_eof rem with
          | Except.error e => Except.error e
          | Except.ok (_, (_, numTok)) =>
              match parse_number numTok with
              | Except.error e => Except.error e
              | Except.ok (_, num) =>
                  Except.ok ("", BreakpointCmd.Unset (asU8 num))
      | BreakpointOp.List => Except.ok ("", BreakpointCmd.List)
      | BreakpointOp.Unknown => Except.ok ("", BreakpointCmd.Unknown)

/-- Breakpoint table: the embedding of `HashMap<Location, Breakpoint>`
(src/debugger.rs line 20, src/main.rs line 15) as an association list with
unique keys. -/
abbrev Table : Type := List (Location × Breakpoint)

/-- HashMap lookup. -/
def tableGet (t : Table) (k : Location) : Option Breakpoint :=
  (t.find? (fun p => p.1 == k)).map (fun p => p.2)

/-- HashMap::insert: replaces the value when the key is present, otherwise
adds the entry. -/
def tableInsert : Table → Location → Breakpoint → Table
  | [], k, v => [(k, v)]
  | (k0, v0) :: t, k, v =>
      if k0 = k then (k, v) :: t else (k0, v0) :: tableInsert t k v

/-- Debugger::set_breakpoint (src/debugger.rs lines 128-133, duplicated in
src/main.rs lines 350-355): builds a fresh breakpoint, enables it, and
unconditionally inserts it into the table under its Location key.  No check
for a pre-existing entry is made anywhere. -/
def Debugger.set_breakpoint (bps : Table) (mem : Mem) (addr : Location) :
    Option (Table × Mem) :=
  match Breakpoint.enable (Breakpoint.new addr) mem with
  | none => none
  | some (bp, mem2) => some (tableInsert bps addr bp, mem2)

/-- Effect: the observable actions the command dispatch performs on the
traced process and the terminal.  `ptraceCont`, `waitpid`,
`readRegister`/`writeRegister` (a `getregs` snapshot projected or updated and
committed with `setregs`) and `print` are the operations src/debugger.rs
lines 86-126 actually issues; `singleStep` is `ptrace::step` from the same
`nix::sys::ptrace` interface, included so that its absence from a dispatch
can be stated. -/
inductive Effect where
  | ptraceCont
  | waitpid
  | singleStep
  | readRegister : RegisterKind → Effect
  | writeRegister : RegisterKind → Int → Effect
  | print : String → Effect
deriving DecidableEq, Repr

/-- HandleResult: a dispatch either completes with a list of effects or
panics (an `unwrap` on a parse error), which aborts the whole session. -/
inductive HandleResult where
  | ok : List Effect → HandleResult
  | panic
deriving DecidableEq, Repr

/-- Debugger::handle_input (src/debugger.rs lines 86-126).  Every parse
result is `unwrap`ped, so any parse error or inner panic kills the session
(`HandleResult.panic`).  The `Continue` arm issues `ptrace::cont` and then
blocks in `waitpid` — nothing else: it never consults the breakpoint table
or the instruction pointer.  The method's `self.breakpoints` field is never
read (`set_breakpoint` is commented out in the `Break` arm, which only
prints); the table is kept as a parameter to state claims about states that
hold breakpoints. -/
def Debugger.handle_input (bps : Table) (line : String) : HandleResult :=
  match parse_cmd line with
  | Except.error _ => HandleResult.panic
  | Except.ok (args, cmd) =>
      match cmd with
      | Command.Continue => HandleResult.ok [Effect.ptraceCont, Effect.waitpid]
      | Command.Break =>
          match parse_bkpt_cmd args with
          | Except.error _ => HandleResult.panic
          | Except.ok (_, bc) =>
              match bc with
              | BreakpointCmd.List =>
                  HandleResult.ok [Effect.print "List breakpoints"]
              | BreakpointCmd.Set _ =>
                  HandleResult.ok [Effect.print "Set breakpoint"]
              | BreakpointCmd.Unset num =>
                  HandleResult.ok [Effect.print ("Unset breakpoint: " ++ toString num)]
              | BreakpointCmd.Unknown =>
                  HandleResult.ok [Effect.print "Unknown breakpoint command"]
      | Command.Register =>
          match parse_reg_cmd args with
          | Except.error _ => HandleResult.panic
          | Except.ok (_, rc) =>
              match rc.op with
              | RegisterOp.Read =>
                  HandleResult.ok [Effect.readRegister rc.register.kind]
              | RegisterOp.Write v =>
                  HandleResult.ok [Effect.writeRegister rc.register.kind v]
              | RegisterOp.Unknown =>
                  HandleResult.ok [Effect.print "Unknown register command"]
      | Command.Unknown => HandleResult.ok [Effect.print "Unknown command"]

/-- MainCommand (src/main.rs lines 33-37): the top-level commands of the
inline dispatcher in main.rs, which has no register category. -/
inductive MainCommand where
  | Continue | Break | Unknown
deriving DecidableEq, Repr

/-- Command::from in main.rs (lines 358-366). -/
def MainCommand.from (cmd : String) : MainCommand :=
  if cmd = "c" ∨ cmd = "cont" ∨ cmd = "continue" then MainCommand.Continue
  else if cmd = "b" ∨ cmd = "br" ∨ cmd = "break" ∨ cmd = "bkpt" then MainCommand.Break
  else MainCommand.Unknown

/-- str::strip_prefix("0x"). -/
def strip0x (s : String) : Option String :=
  match s.data with
  | '0' :: 'x' :: rest => some (String.mk rest)
  | _ => none

/-- Value of one hexadecimal digit, either case. -/
def hexDigitVal (c : Char) : Option Nat :=
  if '0' ≤ c ∧ c ≤ '9' then some (c.toNat - 48)
  else if 'a' ≤ c ∧ c ≤ 'f' then some (c.toNat - 87)
  else if 'A' ≤ c ∧ c ≤ 'F' then some (c.toNat - 55)
  else none

/-- isize::from_str_radix(s, 16) on an unsigned hexadecimal numeral: fails
on an empty string, on any non-hex-digit character, and on overflow past
`isize::MAX`.  (The Rust function also accepts a leading sign character; no
claim involves signed input, and signed numerals are not modelled.) -/
def from_str_radix16 (s : String) : Option Int :=
  match s.data.foldl
      (fun acc c =>
        match acc, hexDigitVal c with
        | some a, some d => some (a * 16 + d)
        | _, _ => none)
      (some 0) with
  | some v => if s.data ≠ [] ∧ v ≤ isizeMax then some (v : Int) else none
  | none => none

/-- Splitting a character list at every single space, the semantics of
Rust's `line.split(" ")`: consecutive separators produce empty pieces and
the result always has at least one piece. -/
def splitOnSpace : List Char → List (List Char)
  | [] => [[]]
  | c :: cs =>
      if c = ' ' then [] :: splitOnSpace cs
      else
        match splitOnSpace cs with
        | [] => [[c]]
        | p :: ps => (c :: p) :: ps

/-- MainAction: what one iteration of the main.rs dispatcher did. -/
inductive MainAction where
  | contAndWait
  | breakpointSetAt : Location → MainAction
  | unknownMsg
deriving DecidableEq, Repr

/-- Debugger::handle_input in main.rs (lines 327-348).  The line is split on
single spaces (`line.split(" ")`, which always yields at least one piece, so
the first `next().unwrap()` cannot panic).  The `Break` arm takes the next
token — panicking when it is absent — strips the mandatory "0x" prefix and
parses the rest as hexadecimal, `unwrap`ping both results, then calls
`set_breakpoint` on the parsed address. -/
def main_handle_input (bps : Table) (mem : Mem) (line : String) :
    Option (Table × Mem × MainAction) :=
  match (splitOnSpace line.data).map String.mk with
  | [] => none
  | cmd :: rest =>
      match MainCommand.from cmd with
      | MainCommand.Continue => some (bps, mem, MainAction.contAndWait)
      | MainCommand.Break =>
          match rest with
          | [] => none
          | a :: _ =>
              match strip0x a with
              | none => none
              | some h =>
                  match from_str_radix16 h with
                  | none => none
                  | some addr =>
                      match Debugger.set_breakpoint bps mem (Location.Address addr) with
                      | none => none
                      | some (t2, m2) =>
                          some (t2, m2, MainAction.breakpointSetAt (Location.Address addr))
      | MainCommand.Unknown => some (bps, mem, MainAction.unknownMsg)

/-- The traced process is stopped with the instruction pointer at the
address of an enabled breakpoint of the table. -/
def stoppedAtEnabledBp (bps : Table) (rip : Int) : Bool :=
  ((tableGet bps (Location.Address rip)).map (fun bp => bp.enabled)).getD false

/-- C2: the claim states that a continue dispatched while the process is
stopped at the address of an enabled breakpoint first rewinds the
instruction pointer, temporarily disables that breakpoint, single-steps,
re-enables it, and only then continues.  The source's `Continue` arm does
none of this: whatever the breakpoint table and instruction pointer are, it
immediately issues `ptrace::cont` and blocks in `waitpid` — the effect list
is exactly those two actions, with no register access, no memory patching
and no single-step. -/
theorem c2_continue_issues_cont_without_recovery (bps : Table) (rip : Int)
    (_h : stoppedAtEnabledBp bps rip = true) :
    Debugger.handle_input bps "c" = HandleResult.ok [Effect.ptraceCont, Effect.waitpid]
    ∧ Effect.singleStep ∉ [Effect.ptraceCont, Effect.waitpid] := by
  exact ⟨rfl, by decide⟩

/-- Concrete state for the C2 scenario: the table holds one enabled
breakpoint at address 0x1000 and the instruction pointer is 0x1000. -/
def c2Table : Table :=
  [(Location.Address 0x1000, ⟨Location.Address 0x1000, true, 0xAB⟩)]

/-- Witness for C2 at the concrete stopped-at-breakpoint state. -/
theorem c2_continue_issues_cont_without_recovery_witness :
    stoppedAtEnabledBp c2Table 0x1000 = true
    ∧ (Debugger.handle_input c2Table "c"
        = HandleResult.ok [Effect.ptraceCont, Effect.waitpid]
      ∧ Effect.singleStep ∉ [Effect.ptraceCont, Effect.waitpid]) :=
  ⟨by decide, c2_continue_issues_cont_without_recovery c2Table 0x1000 (by decide)⟩

/-- C4: the claim states that a set command for a Location already in the
table fails with AlreadyExists, keeps one entry for that Location, and
leaves the existing breakpoint untouched.  In the source `set_breakpoint`
never checks the table: the second call succeeds, and while `HashMap` key
uniqueness does keep the entry count at one, the entry is replaced by a
fresh enabled breakpoint whose saved byte was read from the already-patched
word — the trap opcode 0xCC — losing the first breakpoint's saved byte
0xAB.  No AlreadyExists value exists anywhere in the code. -/
theorem c4_duplicate_set_succeeds_and_clobbers :
    ((Debugger.set_breakpoint [] (fun _ => 0xAB) (Location.Address 0x1000)).map
      (fun s => (tableGet s.1 (Location.Address 0x1000)).map
        (fun bp => bp.old_instruction))) = some (some 0xAB)
    ∧ (((Debugger.set_breakpoint [] (fun _ => 0xAB) (Location.Address 0x1000)).bind
        (fun s => Debugger.set_breakpoint s.1 s.2 (Location.Address 0x1000))).map
          (fun s => (s.1.length, (tableGet s.1 (Location.Address 0x1000)).map
            (fun bp => (bp.enabled, bp.old_instruction)))))
      = some (1, some (true, 0xCC)) := by
  exact ⟨rfl, rfl⟩

/-- C6: the claimed line-to-command mappings, evaluated on the source
parser.  `"c"` does parse to Continue, `"register read rax"` does parse to a
read of rax, and `"xyz"` does parse to Unknown with the dispatch merely
printing a message (the session loop then reprompts).  Two mappings fail:
`"register write rax 42"` parses to `RegisterOp::Unknown` — the write arm of
`RegisterOp::from` matches only `"w"` and `"Write"` (capital W) — so the
dispatch prints "Unknown register command" instead of writing 42 to rax; and
in the parser component `"break 0x401000"` yields `BreakpointCmd::Unknown`,
because the token after `break` must be a sub-operation (`set`/`unset`/`ls`)
and even `break set <addr>` returns the hardcoded address 0x1234.  Only the
separate inline dispatcher of main.rs maps `"break 0x401000"` to a
breakpoint set at 0x401000 (final conjunct). -/
theorem c6_parser_line_mappings :
    parse_cmd "c" = Except.ok ("", Command.Continue)
    ∧ Debugger.handle_input [] "c" = HandleResult.ok [Effect.ptraceCont, Effect.waitpid]
    ∧ parse_reg_cmd " read rax"
      = Except.ok ("", ⟨RegisterOp.Read, ⟨RegisterKind.Rax, ⟨0, "rax"⟩⟩⟩)
    ∧ parse_reg_cmd " write rax 42"
      = Except.ok ("", ⟨RegisterOp.Unknown, ⟨RegisterKind.Rax, ⟨0, "rax"⟩⟩⟩)
    ∧ Debugger.handle_input [] "register write rax 42"
      = HandleResult.ok [Effect.print "Unknown register command"]
    ∧ parse_cmd "xyz" = Except.ok ("", Command.Unknown)
    ∧ Debugger.handle_input [] "xyz" = HandleResult.ok [Effect.print "Unknown command"]
    ∧ parse_cmd "break 0x401000" = Except.ok (" 0x401000", Command.Break)
    ∧ parse_bkpt_cmd " 0x401000" = Except.ok ("", BreakpointCmd.Unknown)
    ∧ ((main_handle_input [] (fun _ => 0xAB) "break 0x401000").map
        (fun r => ((tableGet r.1 (Location.Address 0x401000)).map
          (fun bp => bp.enabled), r.2.2)))
      = some (some true, MainAction.breakpointSetAt (Location.Address 0x401000)) := by
  exact ⟨rfl, rfl, rfl, rfl, rfl, rfl, rfl, rfl, rfl, rfl⟩

/-- C7: the claim states that a missing or malformed numeric argument yields
a ParseError with the session alive, never a panic.  In the source every
parse result is `unwrap`ped in `handle_input`, so those lines panic and kill
the session: `"register w rbx"` (missing value — the `unwrap` inside
`RegisterOp::from`), `"break unset foo"` (non-decimal number), and
`"register w rbx abc"` (non-decimal value).  The spec's own example
`"register write rbx"` does not even reach the missing-value `unwrap`: the
"Write"-capitalization bug maps it to `RegisterOp::Unknown` and the dispatch
prints "Unknown register command" — a wrong-category report, not a
ParseError. -/
theorem c7_missing_or_malformed_argument_panics :
    Debugger.handle_input [] "register w rbx" = HandleResult.panic
    ∧ Debugger.handle_input [] "break unset foo" = HandleResult.panic
    ∧ Debugger.handle_input [] "register w rbx abc" = HandleResult.panic
    ∧ Debugger.handle_input [] "register write rbx"
      = HandleResult.ok [Effect.print "Unknown register command"] := by
  exact ⟨rfl, rfl, rfl, rfl⟩

/-- A character list holding no space makes `take_until(" ")` fail. -/
theorem takeUntilSpace_eq_none_of_no_space (ds : List Char)
    (h : ∀ c ∈ ds, c ≠ ' ') : takeUntilSpace ds = none := by
  induction ds with
  | nil => rfl
  | cons c cs ih =>
      have hc : c ≠ ' ' := h c (List.mem_cons_self c cs)
      have hcs := ih (fun x hx => h x (List.mem_cons_of_mem c hx))
      simp [takeUntilSpace, hc, hcs]

/-- An ASCII decimal digit is neither a space nor a tab. -/
theorem isSpaceChar_eq_false_of_isDigit {c : Char} (h : c.isDigit = true) :
    isSpaceChar c = false := by
  by_cases h1 : c = ' '
  · subst h1; exact absurd h (by decide)
  · by_cases h2 : c = '\t'
    · subst h2; exact absurd h (by decide)
    · simp [isSpaceChar, h1, h2]

/-- An ASCII decimal digit is not the space character. -/
theorem ne_space_of_isDigit {c : Char} (h : c.isDigit = true) : c ≠ ' ' := by
  intro h1
  subst h1
  exact absurd h (by decide)

/-- `takeWhile isDigit` keeps an all-digit list whole. -/
theorem takeWhile_isDigit_eq_self (ds : List Char)
    (h : ∀ c ∈ ds, c.isDigit = true) : ds.takeWhile Char.isDigit = ds := by
  induction ds with
  | nil => rfl
  | cons c cs ih =>
      simp [List.takeWhile_cons, h c (List.mem_cons_self c cs),
        ih (fun x hx => h x (List.mem_cons_of_mem c hx))]

/-- `dropWhile isDigit` exhausts an all-digit list. -/
theorem dropWhile_isDigit_eq_nil (ds : List Char)
    (h : ∀ c ∈ ds, c.isDigit = true) : ds.dropWhile Char.isDigit = [] := by
  induction ds with
  | nil => rfl
  | cons c cs ih =>
      simp [List.dropWhile_cons, h c (List.mem_cons_self c cs),
        ih (fun x hx => h x (List.mem_cons_of_mem c hx))]

/-- `space1` on a single space followed by digits consumes exactly the
space. -/
theorem space1_cons_space_of_digits (ds : List Char)
    (h : ∀ c ∈ ds, c.isDigit = true) :
    space1 ⟨' ' :: ds⟩ = Except.ok (⟨ds⟩, ⟨[' ']⟩) := by
  have h1 : ds.takeWhile isSpaceChar = [] := by
    cases ds with
    | nil => rfl
    | cons c cs =>
        simp [List.takeWhile_cons,
          isSpaceChar_eq_false_of_isDigit (h c (List.mem_cons_self c cs))]
  have h2 : ds.dropWhile isSpaceChar = ds := by
    cases ds with
    | nil => rfl
    | cons c cs =>
        simp [List.dropWhile_cons,
          isSpaceChar_eq_false_of_isDigit (h c (List.mem_cons_self c cs))]
  have hsp : isSpaceChar ' ' = true := rfl
  simp [space1, List.takeWhile_cons, List.dropWhile_cons, hsp, h1, h2]

/-- `until_whitespace_or_eof` on input with no space consumes all of it. -/
theorem until_whitespace_or_eof_of_no_space (ds : List Char)
    (h : ∀ c ∈ ds, c ≠ ' ') :
    until_whitespace_or_eof ⟨ds⟩ = Except.ok ("", ⟨ds⟩) := by
  simp [until_whitespace_or_eof, until_whitespace,
    takeUntilSpace_eq_none_of_no_space ds h]

/-- `digit1` consumes an entire non-empty all-digit input. -/
theorem digit1_of_all_digits (ds : List Char) (h1 : ds ≠ [])
    (h2 : ∀ c ∈ ds, c.isDigit = true) :
    digit1 ⟨ds⟩ = Except.ok (⟨[]⟩, ⟨ds⟩) := by
  have hne : ds.isEmpty = false := by
    cases ds with
    | nil => exact absurd rfl h1
    | cons c cs => rfl
  simp [digit1, takeWhile_isDigit_eq_self ds h2, dropWhile_isDigit_eq_nil ds h2, hne]

/-- `parse_number` on a non-empty all-digit numeral within the `isize` range
returns its value. -/
theorem parse_number_of_all_digits (ds : List Char) (h1 : ds ≠ [])
    (h2 : ∀ c ∈ ds, c.isDigit = true) (h3 : digitsVal ds ≤ isizeMax) :
    parse_number ⟨ds⟩ = Except.ok (⟨[]⟩, (digitsVal ds : Int)) := by
  simp [parse_number, digit1_of_all_digits ds h1 h2, h3]

/-- C10 counterexample: the claim quantifies over every decimal numeral, but
the numeral 9223372036854775808 (2 to the 63rd, one past `isize::MAX`) makes
`str::parse::<isize>` overflow, so `parse_number` fails inside `map_res` and
no `Unset` command is produced at all — and the `unwrap` in `handle_input`
then kills the session — instead of yielding `Unset(2^63 mod 256) =
Unset(0)` as the claim would have it. -/
theorem c10_unset_overflow_numeral_yields_no_command :
    parse_bkpt_cmd " unset 9223372036854775808"
      = Except.error (PErr.nom ⟨"9223372036854775808", ErrorKind.mapRes⟩)
    ∧ parse_bkpt_cmd " unset 9223372036854775808"
      ≠ Except.ok ("", BreakpointCmd.Unset (9223372036854775808 % 256))
    ∧ Debugger.handle_input [] "break unset 9223372036854775808"
      = HandleResult.panic := by
  refine ⟨rfl, ?_, rfl⟩
  intro hcontra
  have h1 : parse_bkpt_cmd " unset 9223372036854775808"
      = Except.error (PErr.nom ⟨"9223372036854775808", ErrorKind.mapRes⟩) := rfl
  rw [h1] at hcontra
  exact Except.noConfusion hcontra

/-- C10 (amended): for every decimal numeral — a non-empty digit string —
whose value fits in a 64-bit `isize`, the `breakpoint unset` parse truncates
the parsed number to 8 bits with the `as u8` cast: the resulting `Unset`
command carries the value mod 256.  (Numerals past `isize::MAX` instead fail
to parse; see the companion counterexample.) -/
theorem c10_unset_number_truncated_mod_256 (ds : List Char) (h1 : ds ≠ [])
    (h2 : ∀ c ∈ ds, c.isDigit = true) (h3 : digitsVal ds ≤ isizeMax) :
    parse_bkpt_cmd ⟨' ' :: 'u' :: 'n' :: 's' :: 'e' :: 't' :: ' ' :: ds⟩
      = Except.ok ("", BreakpointCmd.Unset (digitsVal ds % 256)) := by
  have hno : ∀ c ∈ ds, c ≠ ' ' := fun c hc => ne_space_of_isDigit (h2 c hc)
  have hstep1 : pairP space1 until_whitespace_or_eof
      ⟨' ' :: 'u' :: 'n' :: 's' :: 'e' :: 't' :: ' ' :: ds⟩
      = Except.ok (⟨' ' :: ds⟩, (⟨[' ']⟩, "unset")) := rfl
  have hstep2 : pairP space1 until_whitespace_or_eof ⟨' ' :: ds⟩
      = Except.ok ("", (⟨[' ']⟩, ⟨ds⟩)) := by
    simp [pairP, space1_cons_space_of_digits ds h2,
      until_whitespace_or_eof_of_no_space ds hno]
  have hnum := parse_number_of_all_digits ds h1 h2 h3
  simp [parse_bkpt_cmd, hstep1, hstep2, BreakpointOp.from, hnum, asU8]
  omega

/-- Witness for C10 at the numeral 300: the parsed breakpoint number is
300 mod 256 = 44. -/
theorem c10_unset_number_truncated_mod_256_witness :
    (['3', '0', '0'] : List Char) ≠ []
    ∧ (∀ c ∈ (['3', '0', '0'] : List Char), c.isDigit = true)
    ∧ digitsVal ['3', '0', '0'] ≤ isizeMax
    ∧ parse_bkpt_cmd ⟨' ' :: 'u' :: 'n' :: 's' :: 'e' :: 't' :: ' ' :: ['3', '0', '0']⟩
      = Except.ok ("", BreakpointCmd.Unset (digitsVal ['3', '0', '0'] % 256))
    ∧ digitsVal ['3', '0', '0'] % 256 = 44 :=
  ⟨by decide, by decide, by decide,
   c10_unset_number_truncated_mod_256 ['3', '0', '0'] (by decide) (by decide) (by decide),
   by decide⟩
